import Mathlib

/-
Verification of the command-safety classification logic of the repository:
the hooks src/hooks/bash-safety-gate.py (tables BLOCK_PATTERNS, GIT_DANGEROUS,
GIT_WARN_PATTERNS and the function check_command) and src/hooks/safety-gate.py
(table BLOCK_PATTERNS and the function is_dangerous).

The hooks classify a shell command string by running Python re.search with
re.IGNORECASE over fixed tables of regular expressions, first match wins.
We embed exactly the regular-expression constructs those tables use
(literals, \s, \d, ., [/~], [a-z], +, *, ?, alternation, the end anchor)
as an executable matcher, state each table as data, and define the two
classification functions by the same first-match loops as the Python code.
-/

/-- Character classes occurring in the hook regexes: a case-insensitive
literal, Python whitespace class, digit class, the dot (any char except
newline), an explicit character set such as the class of slash and tilde,
and a character range such as the lowercase letters. -/
inductive CC where
  | lit (c : Char)
  | ws
  | digit
  | dot
  | set (cs : List Char)
  | range (lo hi : Char)

/-- ASCII lower-casing; models the effect of re.IGNORECASE (the command
strings and pattern literals concerned are ASCII). -/
def lowerAscii (c : Char) : Char :=
  if 65 ≤ c.toNat ∧ c.toNat ≤ 90 then Char.ofNat (c.toNat + 32) else c

/-- Does a single input character match a character class?  Literal, set and
range comparison is done on ASCII-lowercased characters (re.IGNORECASE);
the whitespace class is Python's [ \t\n\r\f\v]; dot excludes the newline. -/
def CC.matches : CC → Char → Bool
  | .lit c, a => lowerAscii a == lowerAscii c
  | .ws, a => a == ' ' || a == '\t' || a == '\n' || a == '\r' || a == '\x0b' || a == '\x0c'
  | .digit, a => a.isDigit
  | .dot, a => a != '\n'
  | .set cs, a => cs.contains (lowerAscii a)
  | .range lo hi, a => lo ≤ lowerAscii a && lowerAscii a ≤ hi

/-- Regular expressions as the hook tables use them.  Unbounded repetition
only ever applies to a single character class in those tables, so star and
plus take a character class; eol is the Python end anchor. -/
inductive Regex where
  | eps
  | cc (k : CC)
  | seq (a b : Regex)
  | alt (a b : Regex)
  | opt (a : Regex)
  | star (k : CC)
  | plus (k : CC)
  | eol

/-- Zero-or-more repetition of a character class in continuation style:
succeed if the continuation accepts some suffix reachable by consuming
characters of the class. -/
def starAccept (k : CC) (kont : List Char → Bool) : List Char → Bool
  | [] => kont []
  | a :: s => kont (a :: s) || (k.matches a && starAccept k kont s)

/-- Continuation-style matcher: `r.accept s kont` is true iff some prefix of
`s` matches `r` and `kont` accepts the corresponding remainder.  The end
anchor follows Python semantics: it matches at the end of the input or just
before a newline that is the last character. -/
def Regex.accept : Regex → List Char → (List Char → Bool) → Bool
  | .eps, s, k => k s
  | .cc _, [], _ => false
  | .cc c, a :: s, k => c.matches a && k s
  | .seq r1 r2, s, k => r1.accept s (fun s2 => r2.accept s2 k)
  | .alt r1 r2, s, k => r1.accept s k || r2.accept s k
  | .opt r, s, k => k s || r.accept s k
  | .star c, s, k => starAccept c k s
  | .plus _, [], _ => false
  | .plus c, a :: s, k => c.matches a && starAccept c k s
  | .eol, [], k => k []
  | .eol, [a], k => a == '\n' && k [a]
  | .eol, _ :: _ :: _, _ => false

/-- Try to match `r` starting at every position of the input, like the scan
of Python re.search. -/
def searchFrom (r : Regex) : List Char → Bool
  | [] => r.accept [] (fun _ => true)
  | a :: s => r.accept (a :: s) (fun _ => true) || searchFrom r s

/-- Model of `re.search(pattern, s, re.IGNORECASE) is not None`. -/
def reSearch (r : Regex) (s : String) : Bool := searchFrom r s.data

/-- A sequence of case-insensitive literal characters. -/
def rlit (s : String) : Regex :=
  s.data.foldr (fun c r => Regex.seq (Regex.cc (CC.lit c)) r) Regex.eps

/-- Concatenation of a list of regexes. -/
def rcat (l : List Regex) : Regex := l.foldr Regex.seq Regex.eps

/-- One or more whitespace characters. -/
def wsPlus : Regex := Regex.plus CC.ws

/-- Zero or more whitespace characters. -/
def wsStar : Regex := Regex.star CC.ws

/-- Zero or more arbitrary (non-newline) characters. -/
def dotStar : Regex := Regex.star CC.dot

/- The nine generic dangerous-command regexes.  They appear, with the same
source text, both in BLOCK_PATTERNS of src/hooks/bash-safety-gate.py and in
BLOCK_PATTERNS of src/hooks/safety-gate.py, so each is defined once here and
referenced from both tables. -/

/-- Source regex: rm\s+-rf\s+[/~] . -/
def re_rm_root : Regex :=
  rcat [rlit "rm", wsPlus, rlit "-rf", wsPlus, Regex.cc (CC.set ['/', '~'])]

/-- Source regex: rm\s+-rf\s+\.\s*$ . -/
def re_rm_cwd : Regex :=
  rcat [rlit "rm", wsPlus, rlit "-rf", wsPlus, rlit ".", wsStar, Regex.eol]

/-- Source regex (fork bomb): colon, parens, open brace, " :", pipe, ":& ",
close brace, ";:" — as a Python regex the pipe is a top-level alternation,
the empty group matches nothing, and the braces are literal (they do not
form a valid counted repetition), so the pattern is the alternation of the
two literal strings around the pipe. -/
def re_fork_bomb : Regex :=
  Regex.alt (rcat [rlit ":", Regex.eps, rlit "\x7b :"]) (rlit ":& \x7d;:")

/-- Source regex: mkfs\. . -/
def re_mkfs : Regex := rlit "mkfs."

/-- Source regex: dd\s+if=.*of=/dev/ . -/
def re_dd_disk : Regex :=
  rcat [rlit "dd", wsPlus, rlit "if=", dotStar, rlit "of=/dev/"]

/-- Source regex: >\s*/dev/sd[a-z] . -/
def re_redirect_disk : Regex :=
  rcat [rlit ">", wsStar, rlit "/dev/sd", Regex.cc (CC.range 'a' 'z')]

/-- Source regex: chmod\s+-R\s+777\s+/ . -/
def re_chmod_root : Regex :=
  rcat [rlit "chmod", wsPlus, rlit "-R", wsPlus, rlit "777", wsPlus, rlit "/"]

/-- Source regex: curl.*\|\s*(ba)?sh . -/
def re_curl_shell : Regex :=
  rcat [rlit "curl", dotStar, rlit "|", wsStar, Regex.opt (rlit "ba"), rlit "sh"]

/-- Source regex: wget.*\|\s*(ba)?sh . -/
def re_wget_shell : Regex :=
  rcat [rlit "wget", dotStar, rlit "|", wsStar, Regex.opt (rlit "ba"), rlit "sh"]

/- The git-specific regexes of bash-safety-gate.py. -/

/-- Source regex: git\s+push\s+.*--force\s+.*(?:main|master) . -/
def re_force_push_long : Regex :=
  rcat [rlit "git", wsPlus, rlit "push", wsPlus, dotStar, rlit "--force", wsPlus,
    dotStar, Regex.alt (rlit "main") (rlit "master")]

/-- Source regex: git\s+push\s+-f\s+.*(?:main|master) . -/
def re_force_push_short : Regex :=
  rcat [rlit "git", wsPlus, rlit "push", wsPlus, rlit "-f", wsPlus,
    dotStar, Regex.alt (rlit "main") (rlit "master")]

/-- Source regex: git\s+reset\s+--hard\s+HEAD~?\d*\s*$ . -/
def re_hard_reset : Regex :=
  rcat [rlit "git", wsPlus, rlit "reset", wsPlus, rlit "--hard", wsPlus, rlit "HEAD",
    Regex.opt (rlit "~"), Regex.star CC.digit, wsStar, Regex.eol]

/-- Source regex: git\s+clean\s+-fd . -/
def re_git_clean : Regex := rcat [rlit "git", wsPlus, rlit "clean", wsPlus, rlit "-fd"]

/-- Source regex: git\s+checkout\s+--\s+\. . -/
def re_git_checkout_discard : Regex :=
  rcat [rlit "git", wsPlus, rlit "checkout", wsPlus, rlit "--", wsPlus, rlit "."]

/-- Source regex: git\s+rebase\s+-i . -/
def re_rebase_interactive : Regex := rcat [rlit "git", wsPlus, rlit "rebase", wsPlus, rlit "-i"]

/-- Source regex: git\s+commit\s+--amend . -/
def re_commit_amend : Regex := rcat [rlit "git", wsPlus, rlit "commit", wsPlus, rlit "--amend"]

namespace BashSafetyGate

/-- BLOCK_PATTERNS of src/hooks/bash-safety-gate.py: pairs of a regex and its
human-readable description. -/
def BLOCK_PATTERNS : List (Regex × String) := [
  (re_rm_root, "Recursive delete of root/home"),
  (re_rm_cwd, "Recursive delete of current dir"),
  (re_fork_bomb, "Fork bomb"),
  (re_mkfs, "Format filesystem"),
  (re_dd_disk, "Overwrite disk"),
  (re_redirect_disk, "Redirect to disk device"),
  (re_chmod_root, "Dangerous permissions on root"),
  (re_curl_shell, "Pipe curl to shell"),
  (re_wget_shell, "Pipe wget to shell")]

/-- GIT_DANGEROUS of src/hooks/bash-safety-gate.py. -/
def GIT_DANGEROUS : List (Regex × String) := [
  (re_force_push_long, "Force push to main/master"),
  (re_force_push_short, "Force push to main/master"),
  (re_hard_reset, "Hard reset (may lose work)"),
  (re_git_clean, "Clean untracked files"),
  (re_git_checkout_discard, "Discard all changes")]

/-- GIT_WARN_PATTERNS of src/hooks/bash-safety-gate.py. -/
def GIT_WARN_PATTERNS : List (Regex × String) := [
  (re_rebase_interactive, "Interactive rebase"),
  (re_commit_amend, "Amend commit")]

/-- check_command of src/hooks/bash-safety-gate.py.  Returns the triple
(decision, reason, context): the three pattern groups are scanned in order
BLOCK_PATTERNS, GIT_DANGEROUS, GIT_WARN_PATTERNS, first match wins; a block
match denies with a reason, a warn match allows with an advisory context.
(The Python function also computes command.lower() into a local that it
never uses; the actual matching is re.search with re.IGNORECASE on the
original string, as here.) -/
def check_command (command : String) : String × String × String :=
  match BLOCK_PATTERNS.find? (fun pd => reSearch pd.1 command) with
  | some pd => ("deny", "Blocked dangerous command: " ++ pd.2, "")
  | none =>
    match GIT_DANGEROUS.find? (fun pd => reSearch pd.1 command) with
    | some pd => ("deny", "Blocked git operation: " ++ pd.2, "")
    | none =>
      match GIT_WARN_PATTERNS.find? (fun pd => reSearch pd.1 command) with
      | some pd => ("allow", "", "⚠️ Caution: " ++ pd.2 ++ " - ensure this is intentional")
      | none => ("allow", "", "")

end BashSafetyGate

namespace SafetyGate

/-- BLOCK_PATTERNS of src/hooks/safety-gate.py: the same nine regexes (the
two files repeat the same regex source text), paired here with that source
text because is_dangerous interpolates the pattern text into its reason. -/
def BLOCK_PATTERNS : List (Regex × String) := [
  (re_rm_root, "rm\\s+-rf\\s+[/~]"),
  (re_rm_cwd, "rm\\s+-rf\\s+\\.\\s*$"),
  (re_fork_bomb, ":()\x7b :|:& \x7d;:"),
  (re_mkfs, "mkfs\\."),
  (re_dd_disk, "dd\\s+if=.*of=/dev/"),
  (re_redirect_disk, ">\\s*/dev/sd[a-z]"),
  (re_chmod_root, "chmod\\s+-R\\s+777\\s+/"),
  (re_curl_shell, "curl.*\\|\\s*(ba)?sh"),
  (re_wget_shell, "wget.*\\|\\s*(ba)?sh")]

/-- is_dangerous of src/hooks/safety-gate.py: scan BLOCK_PATTERNS in order;
on the first match return true with a reason naming the pattern, else false
with an empty reason. -/
def is_dangerous (command : String) : Bool × String :=
  match BLOCK_PATTERNS.find? (fun pd => reSearch pd.1 command) with
  | some pd => (true, "Blocked: matches dangerous pattern \x27" ++ pd.2 ++ "\x27")
  | none => (false, "")

end SafetyGate

/-- A command matches some deny rule of bash-safety-gate.py: some pattern of
BLOCK_PATTERNS (deny group A) or of GIT_DANGEROUS (deny group B). -/
def denyMatch (c : String) : Bool :=
  BashSafetyGate.BLOCK_PATTERNS.any (fun pd => reSearch pd.1 c) ||
    BashSafetyGate.GIT_DANGEROUS.any (fun pd => reSearch pd.1 c)

/-- A command matches some advisory rule of bash-safety-gate.py (warn group
C, the table GIT_WARN_PATTERNS). -/
def warnMatch (c : String) : Bool :=
  BashSafetyGate.GIT_WARN_PATTERNS.any (fun pd => reSearch pd.1 c)

/-- A command matches one of the two force-push regexes of GIT_DANGEROUS. -/
def gitForcePushMatch (c : String) : Bool :=
  reSearch re_force_push_long c || reSearch re_force_push_short c

/-- Is `sub` a prefix of `hay` (exact character comparison)? -/
def startsWithChars : List Char → List Char → Bool
  | [], _ => true
  | _ :: _, [] => false
  | a :: s, b :: t => a == b && startsWithChars s t

/-- Does `hay` contain `sub` starting at some position? -/
def mentionsFrom (sub : List Char) : List Char → Bool
  | [] => startsWithChars sub []
  | c :: t => startsWithChars sub (c :: t) || mentionsFrom sub t

/-- Does the string `hay` mention `sub` as a contiguous substring? -/
def strMentions (hay sub : String) : Bool := mentionsFrom sub.data hay.data

/-- A string with a non-empty left part of an append is non-empty. -/
theorem str_append_ne_left (s t : String) (h : s ≠ "") : s ++ t ≠ "" := by
  obtain ⟨a⟩ := s
  obtain ⟨b⟩ := t
  intro he
  have hd : a ++ b = [] := congrArg String.data he
  have ha : a = [] := (List.append_eq_nil.mp hd).1
  exact h (by rw [ha])

/-- find? succeeds exactly when some element satisfies the predicate. -/
theorem find?_isSome_eq_any {α : Type} (p : α → Bool) (l : List α) :
    (l.find? p).isSome = l.any p := by
  induction l with
  | nil => rfl
  | cons a t ih =>
    cases hpa : p a
    · simp [List.find?_cons, hpa, List.any_cons, ih]
    · simp [List.find?_cons, hpa, List.any_cons]

example : reSearch re_rm_root "rm -rf /" = true := by decide
example : reSearch re_rm_root "rm -rf home" = false := by decide
example : reSearch re_fork_bomb ":(){ :|:& };:" = true := by decide
example : reSearch re_hard_reset "git reset --hard HEAD~1" = true := by decide
example : reSearch re_force_push_long "git push --force origin main" = true := by decide
example : reSearch re_force_push_long "git push --force origin production" = false := by decide
example : BashSafetyGate.check_command "rm -rf .git" = ("allow", "", "") := by decide
example : BashSafetyGate.check_command "git rebase -i" =
    ("allow", "", "⚠️ Caution: Interactive rebase - ensure this is intentional") := by decide
example : (SafetyGate.is_dangerous "rm -rf ~").1 = true := by decide

/-- C1 (as stated by the spec, refuted): "git rebase -i" matches a
warn-group-C pattern and no deny pattern, yet check_command does not return
the decision "warn": the code returns "allow" (with an advisory context). -/
theorem c1_counterexample :
    warnMatch "git rebase -i" = true ∧ denyMatch "git rebase -i" = false ∧
    (BashSafetyGate.check_command "git rebase -i").1 ≠ "warn" := by decide

/-- C1 (amended): for every command matching some warn-group-C pattern and
no deny pattern, check_command returns the decision "allow" together with an
empty reason and a non-empty advisory suggestion/context. -/
theorem c1_warn_advisory (c : String) (hw : warnMatch c = true) (hd : denyMatch c = false) :
    (BashSafetyGate.check_command c).1 = "allow" ∧
    (BashSafetyGate.check_command c).2.1 = "" ∧
    (BashSafetyGate.check_command c).2.2 ≠ "" := by
  unfold denyMatch at hd
  have h1 := (Bool.or_eq_false_iff.mp hd).1
  have h2 := (Bool.or_eq_false_iff.mp hd).2
  unfold BashSafetyGate.check_command
  split
  next pd hb =>
    exfalso
    have hs : (BashSafetyGate.BLOCK_PATTERNS.find? (fun pd => reSearch pd.1 c)).isSome = true := by
      rw [hb]; rfl
    rw [find?_isSome_eq_any, h1] at hs
    exact Bool.noConfusion hs
  next =>
    split
    next pd hg =>
      exfalso
      have hs : (BashSafetyGate.GIT_DANGEROUS.find? (fun pd => reSearch pd.1 c)).isSome = true := by
        rw [hg]; rfl
      rw [find?_isSome_eq_any, h2] at hs
      exact Bool.noConfusion hs
    next =>
      split
      next pd hw2 =>
        exact ⟨rfl, rfl, str_append_ne_left _ _ (str_append_ne_left _ _ (by decide))⟩
      next hwn =>
        exfalso
        have h3 : warnMatch c = false := by
          unfold warnMatch
          rw [← find?_isSome_eq_any, hwn]; rfl
        rw [hw] at h3
        exact Bool.noConfusion h3

/-- Witness for C1 (amended) at the concrete input "git rebase -i". -/
theorem c1_witness :
    warnMatch "git rebase -i" = true ∧ denyMatch "git rebase -i" = false ∧
    ((BashSafetyGate.check_command "git rebase -i").1 = "allow" ∧
     (BashSafetyGate.check_command "git rebase -i").2.1 = "" ∧
     (BashSafetyGate.check_command "git rebase -i").2.2 ≠ "") :=
  ⟨by decide, by decide, c1_warn_advisory "git rebase -i" (by decide) (by decide)⟩

/-- C2 (as stated by the spec, refuted): on "git rebase -i" check_command
returns the decision "allow" with a non-empty suggestion/context, so it is
false that both fields are empty for every allow outcome. -/
theorem c2_counterexample :
    (BashSafetyGate.check_command "git rebase -i").1 = "allow" ∧
    (BashSafetyGate.check_command "git rebase -i").2.2 ≠ "" := by decide

/-- C2 (amended): every outcome of check_command is either a deny with a
non-empty reason and an empty suggestion (so exactly one of the two fields
is non-empty), or an allow with an empty reason (the suggestion/context may
be non-empty on the advisory path). -/
theorem c2_outcome_shape (c : String) :
    ((BashSafetyGate.check_command c).1 = "deny" ∧
     (BashSafetyGate.check_command c).2.1 ≠ "" ∧
     (BashSafetyGate.check_command c).2.2 = "") ∨
    ((BashSafetyGate.check_command c).1 = "allow" ∧
     (BashSafetyGate.check_command c).2.1 = "") := by
  unfold BashSafetyGate.check_command
  split
  next pd _ => exact Or.inl ⟨rfl, str_append_ne_left _ _ (by decide), rfl⟩
  next =>
    split
    next pd _ => exact Or.inl ⟨rfl, str_append_ne_left _ _ (by decide), rfl⟩
    next =>
      split
      next pd _ => exact Or.inr ⟨rfl, rfl⟩
      next => exact Or.inr ⟨rfl, rfl⟩

/-- C3: every command matching a deny-group-A (BLOCK_PATTERNS) or
deny-group-B (GIT_DANGEROUS) pattern is denied by check_command, with a
non-empty reason and an empty suggestion. -/
theorem c3_deny_patterns_deny (c : String) (h : denyMatch c = true) :
    (BashSafetyGate.check_command c).1 = "deny" ∧
    (BashSafetyGate.check_command c).2.1 ≠ "" ∧
    (BashSafetyGate.check_command c).2.2 = "" := by
  unfold BashSafetyGate.check_command
  split
  next pd _ => exact ⟨rfl, str_append_ne_left _ _ (by decide), rfl⟩
  next hb =>
    split
    next pd _ => exact ⟨rfl, str_append_ne_left _ _ (by decide), rfl⟩
    next hg =>
      exfalso
      have h1 : BashSafetyGate.BLOCK_PATTERNS.any (fun pd => reSearch pd.1 c) = false := by
        rw [← find?_isSome_eq_any, hb]; rfl
      have h2 : BashSafetyGate.GIT_DANGEROUS.any (fun pd => reSearch pd.1 c) = false := by
        rw [← find?_isSome_eq_any, hg]; rfl
      unfold denyMatch at h
      rw [h1, h2] at h
      exact Bool.noConfusion h

/-- Witness for C3 at the concrete input "rm -rf /". -/
theorem c3_witness :
    denyMatch "rm -rf /" = true ∧
    ((BashSafetyGate.check_command "rm -rf /").1 = "deny" ∧
     (BashSafetyGate.check_command "rm -rf /").2.1 ≠ "" ∧
     (BashSafetyGate.check_command "rm -rf /").2.2 = "") :=
  ⟨by decide, c3_deny_patterns_deny "rm -rf /" (by decide)⟩

/-- C4 (as stated by the spec, refuted): the protected-branch set does not
contain "production" or "release": a force push to either is allowed by
check_command, not denied. -/
theorem c4_counterexample :
    BashSafetyGate.check_command "git push --force origin production" = ("allow", "", "") ∧
    BashSafetyGate.check_command "git push --force origin release" = ("allow", "", "") := by
  decide

/-- C4 (amended): the protected branch names are exactly main and master:
every command matching one of the two force-push regexes of GIT_DANGEROUS
(--force or -f followed by main or master) is denied, and in particular
"git push --force origin main" is denied with a reason mentioning "main". -/
theorem c4_force_push_protected :
    (∀ c, gitForcePushMatch c = true → (BashSafetyGate.check_command c).1 = "deny") ∧
    (BashSafetyGate.check_command "git push --force origin main").1 = "deny" ∧
    strMentions (BashSafetyGate.check_command "git push --force origin main").2.1 "main" = true := by
  refine ⟨?_, by decide, by decide⟩
  intro c h
  unfold BashSafetyGate.check_command
  split
  next => rfl
  next =>
    split
    next => rfl
    next hg =>
      exfalso
      have h2 : BashSafetyGate.GIT_DANGEROUS.any (fun pd => reSearch pd.1 c) = false := by
        rw [← find?_isSome_eq_any, hg]; rfl
      simp [BashSafetyGate.GIT_DANGEROUS, List.any_cons, List.any_nil] at h2
      unfold gitForcePushMatch at h
      simp [h2.1, h2.2.1] at h

/-- Witness for C4 (amended) at the concrete input "git push -f origin master". -/
theorem c4_witness :
    gitForcePushMatch "git push -f origin master" = true ∧
    (BashSafetyGate.check_command "git push -f origin master").1 = "deny" :=
  ⟨by decide, c4_force_push_protected.1 "git push -f origin master" (by decide)⟩

/-- C5: deny rules are evaluated before warn rules: every command matching
both some deny pattern and some warn pattern is denied by check_command. -/
theorem c5_deny_precedes_warn (c : String) (hd : denyMatch c = true) (_hw : warnMatch c = true) :
    (BashSafetyGate.check_command c).1 = "deny" := by
  unfold BashSafetyGate.check_command
  split
  next => rfl
  next hb =>
    split
    next => rfl
    next hg =>
      exfalso
      have h1 : BashSafetyGate.BLOCK_PATTERNS.any (fun pd => reSearch pd.1 c) = false := by
        rw [← find?_isSome_eq_any, hb]; rfl
      have h2 : BashSafetyGate.GIT_DANGEROUS.any (fun pd => reSearch pd.1 c) = false := by
        rw [← find?_isSome_eq_any, hg]; rfl
      unfold denyMatch at hd
      rw [h1, h2] at hd
      exact Bool.noConfusion hd

/-- Witness for C5 at a concrete input matching both a deny pattern
(rm -rf /) and a warn pattern (git rebase -i). -/
theorem c5_witness :
    denyMatch "rm -rf / && git rebase -i" = true ∧
    warnMatch "rm -rf / && git rebase -i" = true ∧
    (BashSafetyGate.check_command "rm -rf / && git rebase -i").1 = "deny" :=
  ⟨by decide, by decide,
    c5_deny_precedes_warn "rm -rf / && git rebase -i" (by decide) (by decide)⟩

/-- C6: what the code actually does on "git reset --hard HEAD~1": the hard
reset regex is in the GIT_DANGEROUS (deny) table, so check_command denies
with the reason "Hard reset (may lose work)" and an empty suggestion — it
does not return the warn outcome with a stash/soft-reset suggestion that
the spec and the repository test test_warns_hard_reset describe. -/
theorem c6_code_behavior :
    BashSafetyGate.check_command "git reset --hard HEAD~1" =
      ("deny", "Blocked git operation: Hard reset (may lose work)", "") := by decide

/-- C7: what the code actually does on "rm -rf .git": no BLOCK_PATTERNS or
GIT_DANGEROUS regex matches it (the rm regexes only cover /, ~ and the
current directory), so check_command allows it — it is not denied as the
spec and the repository test test_blocks_rm_git_directory require. -/
theorem c7_code_behavior :
    BashSafetyGate.check_command "rm -rf .git" = ("allow", "", "") := by decide

/-- C8: what the code actually does on "git push --force origin
feature-branch": the force-push regexes require main or master after the
flag and no warn regex covers force pushes, so check_command returns a
plain allow with empty suggestion — not the warn with non-empty suggestion
that the spec and the repository test test_warns_force_push_feature
describe. -/
theorem c8_code_behavior :
    BashSafetyGate.check_command "git push --force origin feature-branch" =
      ("allow", "", "") := by decide

/-- C9: the decision component of check_command is always "allow" or
"deny"; the value "warn" named in the Python docstring is returned on no
execution path. -/
theorem c9_decision_allow_or_deny (s : String) :
    (BashSafetyGate.check_command s).1 = "allow" ∨
    (BashSafetyGate.check_command s).1 = "deny" := by
  unfold BashSafetyGate.check_command
  split
  next => exact Or.inr rfl
  next =>
    split
    next => exact Or.inr rfl
    next =>
      split
      next => exact Or.inl rfl
      next => exact Or.inl rfl

/-- C10: the standalone safety gate refines the combined gate: the two
BLOCK_PATTERNS tables carry the same regexes in the same order, and every
command is_dangerous flags is denied by check_command. -/
theorem c10_refinement :
    (SafetyGate.BLOCK_PATTERNS.map (fun pd => pd.1) =
      BashSafetyGate.BLOCK_PATTERNS.map (fun pd => pd.1)) ∧
    ∀ c, (SafetyGate.is_dangerous c).1 = true →
      (BashSafetyGate.check_command c).1 = "deny" := by
  refine ⟨rfl, ?_⟩
  intro c h
  have hsg : SafetyGate.BLOCK_PATTERNS.any (fun pd => reSearch pd.1 c) = true := by
    unfold SafetyGate.is_dangerous at h
    split at h
    next pd hp => rw [← find?_isSome_eq_any, hp]; rfl
    next => exact Bool.noConfusion h
  have hbg : BashSafetyGate.BLOCK_PATTERNS.any (fun pd => reSearch pd.1 c) = true := hsg
  unfold BashSafetyGate.check_command
  split
  next => rfl
  next hb =>
    exfalso
    rw [← find?_isSome_eq_any, hb] at hbg
    exact Bool.noConfusion hbg

/-- Witness for C10 at the concrete input "rm -rf ~". -/
theorem c10_witness :
    (SafetyGate.is_dangerous "rm -rf ~").1 = true ∧
    (BashSafetyGate.check_command "rm -rf ~").1 = "deny" :=
  ⟨by decide, c10_refinement.2 "rm -rf ~" (by decide)⟩
